import Mathlib

/-! Verification development for the parse_and_nlp pipeline.

This file gives a shallow embedding of the repository's core logic
(src/prompts.py, src/config.py, src/pdf_parser.py, src/nlp_processor.py,
src/main.py) as executable Lean definitions, together with theorems that
settle the behavioural claims about prompt selection, parse normalization,
batch error isolation, result pairing and output layout.

Modelling conventions:
* Python strings are Lean `String`; Python `needle in hay` is the substring
  test `pyIn`.
* Remote backends (Llama Parse, the Claude message API) are modelled as
  records of functions supplied by the environment; a call that may raise a
  Python exception is a function into `Except String _`, the error string
  standing for `str(e)`.
* Filesystem paths are plain strings; `Path(p).name` and `Path(p).stem`
  are `pyPathName` and `pyStem`.
* The awaitable variants (`aparse`, `asyncio.gather`) reach the same remote
  endpoints as the blocking ones; the cooperative-scheduling difference has
  no observable effect in this embedding, so both variants consume the same
  backend fields.  `asyncio.gather(..., return_exceptions := True)` returns
  one entry per task in the order the tasks were passed, independent of
  completion order, which `asyncioGather` models as the identity on the
  list of task outcomes.
-/

namespace ParseAndNlp

/-- Helper for the substring test: true when the first list is an initial
segment of the second. -/
def isLeadingChars : List Char → List Char → Bool
  | [], _ => true
  | _ :: _, [] => false
  | a :: as, b :: bs => a == b && isLeadingChars as bs

/-- Helper for the substring test: true when the first list occurs
contiguously somewhere in the second. -/
def occursChars (needle : List Char) : List Char → Bool
  | [] => isLeadingChars needle []
  | c :: cs => isLeadingChars needle (c :: cs) || occursChars needle cs

/-- Python substring membership `needle in hay` on strings. -/
def pyIn (needle hay : String) : Bool := occursChars needle.data hay.data

/-- Python truthiness of an optional boolean (`None` and `False` are falsy). -/
def pyTruthyOpt : Option Bool → Bool
  | some b => b
  | none => false

/-- Python truthiness of an optional string (`None` and the empty string are
falsy). -/
def pyTruthyStr : Option String → Bool
  | some s => !(s == "")
  | none => false

/-- Helper for `pyPathName`: the last slash-separated component of a
character list, accumulating the current component; written by structural
recursion so that it evaluates definitionally. -/
def lastSlashComponent : List Char → List Char → List Char
  | acc, [] => acc
  | acc, c :: cs =>
    if c == '/' then lastSlashComponent [] cs
    else lastSlashComponent (acc ++ [c]) cs

/-- Model of `pathlib.Path(p).name`: the last slash-separated component of
the path string. -/
def pyPathName (p : String) : String := ⟨lastSlashComponent [] p.data⟩

/-- Model of `pathlib.Path(p).stem`: the final component without its last
suffix; the suffix starts at the last dot of the name provided that dot is
neither the leading character nor the trailing character. -/
def pyStem (p : String) : String :=
  let n := pyPathName p
  match (n.data.reverse.findIdx? (· == '.')).map (fun j => n.data.length - 1 - j) with
  | some k => if 0 < k && k < n.data.length - 1 then ⟨n.data.take k⟩ else n
  | none => n

/-- Configuration record passed to the LlamaParse constructor
(src/config.py, `LLAMA_PARSE_CONFIG`). -/
structure LlamaParseConfig where
  tier : String
  version : String
  high_res_ocr : Bool
  adaptive_long_table : Bool
  outlined_table_extraction : Bool
  output_tables_as_HTML : Bool
  precise_bounding_box : Bool
  page_separator : String
  max_pages : Nat

/-- src/config.py `LLAMA_PARSE_CONFIG`. -/
def LLAMA_PARSE_CONFIG : LlamaParseConfig :=
  { tier := "agentic_plus"
    version := "latest"
    high_res_ocr := true
    adaptive_long_table := true
    outlined_table_extraction := true
    output_tables_as_HTML := true
    precise_bounding_box := true
    page_separator := "\n\n---\n\n"
    max_pages := 0 }

/-- src/config.py `CLAUDE_MODEL`. -/
def CLAUDE_MODEL : String := "claude-sonnet-4-20250514"

/-- src/config.py `CLAUDE_MAX_TOKENS`. -/
def CLAUDE_MAX_TOKENS : Nat := 8000

/-- src/config.py `MARKDOWN_DIR`, modelled as a path string relative to the
source directory. -/
def MARKDOWN_DIR : String := "output/markdown"

/-- src/config.py `NATURAL_LANGUAGE_DIR`, modelled as a path string relative
to the source directory. -/
def NATURAL_LANGUAGE_DIR : String := "output/natural_language"

/-- src/prompts.py `STRUCTURED_DATA_EXTRACTION_PROMPT`, reproduced verbatim. -/
def STRUCTURED_DATA_EXTRACTION_PROMPT : String :=
  "あなたは、構造化データ（表、チャート、図表など）を分析し、情報を欠落させずに自然言語の構造化テキストに変換する専門家です。\n" ++
  "\n" ++
  "以下のMarkdown形式のデータを、**情報の欠落なく**、構造化されたRAG（Retrieval Augmented Generation）用のテキストデータに変換してください。\n" ++
  "\n" ++
  "## 処理手順\n" ++
  "\n" ++
  "### 1. 定義フェーズ：軸と構造の定義\n" ++
  "まず、このデータの構成要素を整理してください：\n" ++
  "\n" ++
  "- **縦軸（行）の項目**：カテゴリ、大項目、中項目などの階層構造をすべて抽出してください\n" ++
  "- **横軸（列）の項目**：列見出しが多段階層になっている場合、その階層をすべて明文化してください\n" ++
  "- **凡例・記号の確認**：「○」「×」「△」「-」「✓」「✗」などの記号や、数値、テキストが何を意味するか、データ内から抽出してください\n" ++
  "- **データ構造の特定**：表形式、リスト形式、フロー図、組織図など、どのような構造を持つデータかを明確にしてください\n" ++
  "\n" ++
  "### 2. 抽出フェーズ：全データの逐次記述\n" ++
  "データの各要素を以下のフォーマットで書き出してください。**データが空欄や「-」であっても省略しないでください。**\n" ++
  "\n" ++
  "**【記述フォーマット】**\n" ++
  "```\n" ++
  "[行項目パス] (例: カテゴリA > サブカテゴリB > 項目C)\n" ++
  "[列項目パス] (例: 条件1 > 条件2 > 詳細条件3)\n" ++
  "[セル内容] (例: ○：可能 / ×：不可 / 数値 / テキスト / 空欄)\n" ++
  "[適用される注釈] (例: 注1を適用 / 補足説明あり)\n" ++
  "```\n" ++
  "\n" ++
  "**重要：**\n" ++
  "- すべてのセル（交差点）について記述してください\n" ++
  "- 空欄やハイフン「-」も明記してください\n" ++
  "- 複数行や複数列にまたがるセルの場合、その範囲を明記してください\n" ++
  "- 階層構造がある場合、「>」記号で親子関係を表現してください\n" ++
  "\n" ++
  "### 3. 統合フェーズ：注釈・補足情報の論理合成\n" ++
  "データに関連する注釈、脚注、補足説明をすべてリストアップし、以下を明確にしてください：\n" ++
  "\n" ++
  "- **注釈の内容**：各注釈が何を説明しているか\n" ++
  "- **適用対象**：どの項目、どのセルに適用されるか\n" ++
  "- **条件・例外**：特定の条件下でのみ適用される場合、その条件を明記\n" ++
  "- **依存関係**：複数の注釈が組み合わさる場合、その関係性を説明\n" ++
  "\n" ++
  "### 4. 要約フェーズ：自然言語による全体解説\n" ++
  "上記のデータに基づき、人間とAIが理解しやすい文章で全体を解説してください：\n" ++
  "\n" ++
  "- **データの概要**：このデータが何を表しているか\n" ++
  "- **主要なルール・パターン**：データから読み取れる主要な規則や傾向\n" ++
  "- **例外条件**：特殊なケース、例外的な条件がある場合は強調\n" ++
  "- **重要な制約**：特定の条件下でのみ有効な情報がある場合は明記\n" ++
  "- **関連性・依存関係**：項目間の関連性や依存関係\n" ++
  "\n" ++
  "**出力形式：**\n" ++
  "- 箇条書き形式で出力してください（まとめずに、詳細を保持）\n" ++
  "- RAGシステムで検索しやすいよう、キーワードを明確に含めてください\n" ++
  "- 曖昧な表現を避け、具体的に記述してください\n" ++
  "\n" ++
  "### 5. 検証フェーズ：精度確認\n" ++
  "回答を出力する前に、以下を**3回**再確認してください：\n" ++
  "\n" ++
  "1. **座標の確認**：縦軸の項目名と横軸の項目名が正確か\n" ++
  "2. **記号の確認**：記号やマーカー（○、×など）が元データと一致しているか\n" ++
  "3. **注釈の確認**：注釈の適用対象と内容が正確か\n" ++
  "\n" ++
  "もし矛盾や誤りを発見した場合は、修正してから出力してください。\n" ++
  "\n" ++
  "---\n" ++
  "\n" ++
  "## 入力データ\n" ++
  "\n" ++
  "以下のMarkdownデータを処理してください：\n" ++
  "\n" ++
  "{markdown_content}\n" ++
  "\n" ++
  "---\n" ++
  "\n" ++
  "## 出力\n" ++
  "\n" ++
  "上記の手順に従って、構造化されたRAG用のテキストデータを出力してください。"

/-- src/prompts.py `GENERAL_EXTRACTION_PROMPT`, reproduced verbatim. -/
def GENERAL_EXTRACTION_PROMPT : String :=
  "以下のMarkdown形式のデータを、RAG（Retrieval Augmented Generation）システムで活用しやすい、構造化された自然言語テキストに変換してください。\n" ++
  "\n" ++
  "## 要件\n" ++
  "\n" ++
  "1. **情報の完全性**：元データの情報を欠落させずに変換してください\n" ++
  "2. **構造の保持**：階層構造、リスト、セクションなどの構造を明確に保ってください\n" ++
  "3. **検索可能性**：重要なキーワードを明確に含め、検索しやすい形式にしてください\n" ++
  "4. **明確性**：曖昧な表現を避け、具体的に記述してください\n" ++
  "5. **箇条書き形式**：まとめすぎず、詳細を箇条書きで保持してください\n" ++
  "\n" ++
  "## 処理手順\n" ++
  "\n" ++
  "1. **データの分類**：このデータが何を表しているか（文書、説明、手順、規則など）を明確にする\n" ++
  "2. **主要な情報の抽出**：重要なポイント、ルール、手順、定義などを抽出する\n" ++
  "3. **詳細の展開**：各項目について、詳細情報を漏らさず記述する\n" ++
  "4. **関連性の明記**：項目間の関連性や依存関係があれば明記する\n" ++
  "5. **補足情報の統合**：注釈、例外、条件などを適切に統合する\n" ++
  "\n" ++
  "---\n" ++
  "\n" ++
  "## 入力データ\n" ++
  "\n" ++
  "{markdown_content}\n" ++
  "\n" ++
  "---\n" ++
  "\n" ++
  "## 出力\n" ++
  "\n" ++
  "上記の要件と手順に従って、RAG用の構造化テキストを出力してください。"


/-- src/prompts.py `table_indicators` (the local list inside
`get_prompt_for_data`). -/
def table_indicators : List String :=
  ["|", "---", "<table>", "<tr>", "<td>",
   "縦軸", "横軸", "行", "列", "セル"]

/-- src/prompts.py `get_prompt_for_data`: picks the structured or the general
template (auto-detecting on the indicator substrings when the selector is
`None`) and substitutes the markdown content for the placeholder, as Python
`str.format` does. -/
def get_prompt_for_data (markdown_content : String) (use_table_prompt : Option Bool) : String :=
  let use_table : Bool :=
    match use_table_prompt with
    | none => table_indicators.any fun indicator => pyIn indicator markdown_content
    | some b => b
  if use_table then
    STRUCTURED_DATA_EXTRACTION_PROMPT.replace "{markdown_content}" markdown_content
  else
    GENERAL_EXTRACTION_PROMPT.replace "{markdown_content}" markdown_content

/-- One document returned by the Llama Parse backend for one page segment
(`doc` in the list comprehension of src/pdf_parser.py); only its `text` is
used by the adapter. -/
structure LlamaPage where
  text : String
deriving DecidableEq

/-- The result object of one remote parse call.  `markdownDocuments` is what
`result.get_markdown_documents(split_by_page=True)` returns;
`filePageCountMetadata` stands for any page count the source file itself
reports, which the adapter never reads. -/
structure LlamaParseResult where
  markdownDocuments : List LlamaPage
  filePageCountMetadata : Nat
deriving DecidableEq

/-- The environment of one `PDFParser` instance: the local filesystem
(`pathlib.Path.exists`) and the remote LlamaParse client.  `parse` models
`self.parser.parse(path)` on one path, `parseBatch` models
`self.parser.parse(list_of_paths)`; the awaitable `aparse` reaches the same
remote endpoints, so both blocking and awaitable adapter variants consume
these same fields.  A remote call that raises is an `Except.error` carrying
`str(e)`. -/
structure ParserBackend where
  pathExists : String → Bool
  parse : String → Except String LlamaParseResult
  parseBatch : List String → Except String (List LlamaParseResult)

/-- The dictionary returned by the parse methods of `PDFParser`
(src/pdf_parser.py): filename, combined markdown, page count and the raw
backend result. -/
structure ParsedData where
  filename : String
  markdown : String
  page_count : Nat
  result : LlamaParseResult
deriving DecidableEq

/-- src/pdf_parser.py `PDFParser.parse_single_pdf`: check existence, call
the backend, join the per-page texts with `"\n\n"` and record the number of
page segments. -/
def parse_single_pdf (b : ParserBackend) (pdf_path : String) : Except String ParsedData :=
  if b.pathExists pdf_path then
    match b.parse pdf_path with
    | .error e => .error e
    | .ok result =>
      let markdown_documents := result.markdownDocuments
      let full_markdown := String.intercalate "\n\n" (markdown_documents.map (·.text))
      .ok { filename := pyPathName pdf_path
            markdown := full_markdown
            page_count := markdown_documents.length
            result := result }
  else
    .error ("PDF file not found: " ++ pdf_path)

/-- src/pdf_parser.py `PDFParser.parse_single_pdf_async`: identical to the
blocking variant except that the remote call is awaited, which the embedding
does not observe. -/
def parse_single_pdf_async (b : ParserBackend) (pdf_path : String) : Except String ParsedData :=
  if b.pathExists pdf_path then
    match b.parse pdf_path with
    | .error e => .error e
    | .ok result =>
      let markdown_documents := result.markdownDocuments
      let full_markdown := String.intercalate "\n\n" (markdown_documents.map (·.text))
      .ok { filename := pyPathName pdf_path
            markdown := full_markdown
            page_count := markdown_documents.length
            result := result }
  else
    .error ("PDF file not found: " ++ pdf_path)

/-- The existence loop at the start of the batch parse methods: the first
path in list order whose `Path.exists()` is false, if any. -/
def firstMissing (b : ParserBackend) : List String → Option String
  | [] => none
  | p :: ps => if b.pathExists p then firstMissing b ps else some p

/-- src/pdf_parser.py `PDFParser.parse_multiple_pdfs`.  The first component
is the returned list (or the raised exception); the second component is the
log of remote batch invocations actually made, so that eagerness of the
existence check is observable: the error branch performs no remote call. -/
def parse_multiple_pdfs (b : ParserBackend) (pdf_paths : List String) :
    Except String (List ParsedData) × List (List String) :=
  match firstMissing b pdf_paths with
  | some p => (.error ("PDF file not found: " ++ p), [])
  | none =>
    match b.parseBatch pdf_paths with
    | .error e => (.error e, [pdf_paths])
    | .ok results =>
      let parsed_results := (pdf_paths.zip results).map fun pr =>
        { filename := pyPathName pr.1
          markdown := String.intercalate "\n\n" (pr.2.markdownDocuments.map (·.text))
          page_count := pr.2.markdownDocuments.length
          result := pr.2 : ParsedData }
      (.ok parsed_results, [pdf_paths])

/-- src/pdf_parser.py `PDFParser.parse_multiple_pdfs_async`: identical to
the blocking batch variant except that the remote call is awaited. -/
def parse_multiple_pdfs_async (b : ParserBackend) (pdf_paths : List String) :
    Except String (List ParsedData) × List (List String) :=
  match firstMissing b pdf_paths with
  | some p => (.error ("PDF file not found: " ++ p), [])
  | none =>
    match b.parseBatch pdf_paths with
    | .error e => (.error e, [pdf_paths])
    | .ok results =>
      let parsed_results := (pdf_paths.zip results).map fun pr =>
        { filename := pyPathName pr.1
          markdown := String.intercalate "\n\n" (pr.2.markdownDocuments.map (·.text))
          page_count := pr.2.markdownDocuments.length
          result := pr.2 : ParsedData }
      (.ok parsed_results, [pdf_paths])

/-- src/pdf_parser.py `PDFParser.save_markdown`, reduced to the output path
it returns (the write itself is a filesystem effect outside the embedding). -/
def save_markdown_path (parsed_data : ParsedData) : String :=
  MARKDOWN_DIR ++ "/" ++ (pyStem parsed_data.filename ++ ".md")

/-- src/pdf_parser.py `get_all_pdfs_in_directory`: `sorted(directory.glob("*.pdf"))`.
A directory is modelled by the list of its entry names in the filesystem's
enumeration order; the `*.pdf` pattern matches exactly the names ending in
`.pdf`, and Python's `sorted` on same-directory paths orders them by their
name strings. -/
def get_all_pdfs_in_directory (entries : List String) : List String :=
  List.insertionSort (· ≤ ·) (entries.filter fun name => name.endsWith ".pdf")

/-- Token usage reported by the completion backend
(`message.usage` in src/nlp_processor.py). -/
structure ClaudeUsage where
  input_tokens : Nat
  output_tokens : Nat
deriving DecidableEq

/-- One response of the completion backend: `message.content[0].text` and
the usage counters. -/
structure ClaudeMessage where
  text : String
  usage : ClaudeUsage
deriving DecidableEq

/-- The environment of one `NLPProcessor` instance: the configured model
identifier and the remote `messages.create` call, taking the single user
message content and the token ceiling.  A transport failure is an
`Except.error` carrying `str(e)`. -/
structure ClaudeBackend where
  model : String
  create : String → Nat → Except String ClaudeMessage

/-- The dictionary returned by `NLPProcessor.process_markdown`
(src/nlp_processor.py). -/
structure NLResult where
  natural_language : String
  model : String
  input_tokens : Nat
  output_tokens : Nat
  prompt_type : String
deriving DecidableEq

/-- A completed `process_markdown` call: the returned dictionary together
with the prompt string that was actually submitted as the user message of
the `messages.create` request. -/
structure ProcessMarkdownCall where
  result : NLResult
  submittedPrompt : String
deriving DecidableEq

/-- src/nlp_processor.py `NLPProcessor.process_markdown`.  Python truthiness
applies: a `None` or empty `custom_prompt` falls back to
`get_prompt_for_data`, a `None` or zero `max_tokens` falls back to
`CLAUDE_MAX_TOKENS`, and the returned `prompt_type` is
`"custom" if custom_prompt else ("table" if use_table_prompt else "general")`. -/
def process_markdown (c : ClaudeBackend) (markdown_content : String)
    (use_table_prompt : Option Bool) (custom_prompt : Option String)
    (max_tokens : Option Nat) : Except String ProcessMarkdownCall :=
  let max_tokens : Nat :=
    match max_tokens with
    | some m => if m == 0 then CLAUDE_MAX_TOKENS else m
    | none => CLAUDE_MAX_TOKENS
  let prompt : String :=
    if pyTruthyStr custom_prompt then custom_prompt.getD ""
    else get_prompt_for_data markdown_content use_table_prompt
  match c.create prompt max_tokens with
  | .error e => .error e
  | .ok message =>
    .ok { result :=
            { natural_language := message.text
              model := c.model
              input_tokens := message.usage.input_tokens
              output_tokens := message.usage.output_tokens
              prompt_type :=
                if pyTruthyStr custom_prompt then "custom"
                else if pyTruthyOpt use_table_prompt then "table" else "general" }
          submittedPrompt := prompt }

/-- src/nlp_processor.py `NLPProcessor.save_natural_language`, reduced to
the pair of the output path and the file content written
(`output_content` in the source). -/
def save_natural_language (processed_data : NLResult)
    (source_file : Option String) (filename : Option String) : String × String :=
  let fname : String :=
    match filename with
    | some f => f
    | none =>
      match source_file with
      | some sf => pyStem sf ++ "_nl.txt"
      | none => "natural_language_output.txt"
  let output_content : String :=
    "# 自然言語処理結果\n# Model: " ++ processed_data.model ++
    "\n# Prompt Type: " ++ processed_data.prompt_type ++
    "\n# Input Tokens: " ++ toString processed_data.input_tokens ++
    "\n# Output Tokens: " ++ toString processed_data.output_tokens ++
    "\n\n" ++ processed_data.natural_language ++ "\n"
  (NATURAL_LANGUAGE_DIR ++ "/" ++ fname, output_content)

/-- The success dictionary returned by `Pipeline.process_single_pdf`
(src/main.py). -/
structure SingleResult where
  pdf_file : String
  markdown : String
  markdown_path : Option String
  natural_language : String
  natural_language_path : Option String
  page_count : Nat
  model : String
  input_tokens : Nat
  output_tokens : Nat
deriving DecidableEq

/-- One entry of the list returned by the batch methods of `Pipeline`:
either the success dictionary or the failure dictionary
`{"pdf_file": name, "error": str(e)}`. -/
inductive BatchRecord where
  | success (r : SingleResult)
  | failure (pdf_file : String) (error : String)
deriving DecidableEq

/-- The document identity carried by a batch record (its `pdf_file` key). -/
def BatchRecord.pdf_file : BatchRecord → String
  | .success r => r.pdf_file
  | .failure f _ => f

/-- A `Pipeline` instance (src/main.py): its two adapters. -/
structure Pipeline where
  pdfParserAdapter : ParserBackend
  nlp : ClaudeBackend

/-- src/main.py `Pipeline.process_single_pdf`: parse, optionally persist the
markdown, convert to natural language, optionally persist the result, and
assemble the combined record.  Any exception from a step propagates as the
`Except.error`. -/
def Pipeline.process_single_pdf (pl : Pipeline) (pdf_path : String)
    (use_table_prompt : Option Bool) (save_markdown save_nl : Bool) :
    Except String SingleResult :=
  match parse_single_pdf pl.pdfParserAdapter pdf_path with
  | .error e => .error e
  | .ok parsed_data =>
    let markdown_path : Option String :=
      if save_markdown then some (save_markdown_path parsed_data) else none
    match process_markdown pl.nlp parsed_data.markdown use_table_prompt none none with
    | .error e => .error e
    | .ok call =>
      let nl_path : Option String :=
        if save_nl then
          some (save_natural_language call.result (some (pyPathName pdf_path))
                  (some (pyStem pdf_path ++ "_nl.txt"))).1
        else none
      .ok { pdf_file := pyPathName pdf_path
            markdown := parsed_data.markdown
            markdown_path := markdown_path
            natural_language := call.result.natural_language
            natural_language_path := nl_path
            page_count := parsed_data.page_count
            model := call.result.model
            input_tokens := call.result.input_tokens
            output_tokens := call.result.output_tokens }

/-- src/main.py `Pipeline.process_single_pdf_async`: identical to the
blocking variant except that the parse step awaits
`parse_single_pdf_async`. -/
def Pipeline.process_single_pdf_async (pl : Pipeline) (pdf_path : String)
    (use_table_prompt : Option Bool) (save_markdown save_nl : Bool) :
    Except String SingleResult :=
  match parse_single_pdf_async pl.pdfParserAdapter pdf_path with
  | .error e => .error e
  | .ok parsed_data =>
    let markdown_path : Option String :=
      if save_markdown then some (save_markdown_path parsed_data) else none
    match process_markdown pl.nlp parsed_data.markdown use_table_prompt none none with
    | .error e => .error e
    | .ok call =>
      let nl_path : Option String :=
        if save_nl then
          some (save_natural_language call.result (some (pyPathName pdf_path))
                  (some (pyStem pdf_path ++ "_nl.txt"))).1
        else none
      .ok { pdf_file := pyPathName pdf_path
            markdown := parsed_data.markdown
            markdown_path := markdown_path
            natural_language := call.result.natural_language
            natural_language_path := nl_path
            page_count := parsed_data.page_count
            model := call.result.model
            input_tokens := call.result.input_tokens
            output_tokens := call.result.output_tokens }

/-- src/main.py `Pipeline.process_multiple_pdfs`: iterate the paths in input
order, appending the success record or, on an exception, the failure record
tagged with the document name, and continue with the next document. -/
def Pipeline.process_multiple_pdfs (pl : Pipeline) (pdf_paths : List String)
    (use_table_prompt : Option Bool) (save_markdown save_nl : Bool) :
    List BatchRecord :=
  pdf_paths.map fun pdf_path =>
    match pl.process_single_pdf pdf_path use_table_prompt save_markdown save_nl with
    | .ok result => .success result
    | .error e => .failure (pyPathName pdf_path) e

/-- Model of `asyncio.gather(*tasks, return_exceptions=True)`: one outcome
per task, in the order the tasks were passed, each either the task's value
or the exception it raised; this is independent of the completion order of
the underlying tasks, so on the list of task outcomes it is the identity. -/
def asyncioGather (outcomes : List (Except String SingleResult)) :
    List (Except String SingleResult) :=
  outcomes

/-- src/main.py `Pipeline.process_multiple_pdfs_async`: launch one task per
path, gather with `return_exceptions=True`, then zip the paths with the
outcomes and turn each exception into the failure record tagged with its
document's name. -/
def Pipeline.process_multiple_pdfs_async (pl : Pipeline) (pdf_paths : List String)
    (use_table_prompt : Option Bool) (save_markdown save_nl : Bool) :
    List BatchRecord :=
  let tasks := pdf_paths.map fun pdf_path =>
    pl.process_single_pdf_async pdf_path use_table_prompt save_markdown save_nl
  let results := asyncioGather tasks
  (pdf_paths.zip results).map fun pr =>
    match pr.2 with
    | .error e => .failure (pyPathName pr.1) e
    | .ok result => .success result

/-- The two prompt-forcing command-line flags of src/main.py `main`
(both are plain `store_true` arguments of the parser, not members of a
mutually exclusive group). -/
structure Args where
  table_prompt : Bool
  general_prompt : Bool
deriving DecidableEq

/-- src/main.py `main`, the selector computation: `use_table_prompt = None;
if args.table_prompt: use_table_prompt = True elif args.general_prompt:
use_table_prompt = False`. -/
def determine_use_table_prompt (args : Args) : Option Bool :=
  if args.table_prompt then some true
  else if args.general_prompt then some false
  else none

/-- Modelled from the spec: the layout C8 claims for the persisted
natural-language file — a four-line metadata header (model id,
prompt-variant tag, input tokens, output tokens) followed by the generated
text body, with nothing else preceding the body. -/
def spec_four_line_header_layout (d : NLResult) : String :=
  "# Model: " ++ d.model ++
  "\n# Prompt Type: " ++ d.prompt_type ++
  "\n# Input Tokens: " ++ toString d.input_tokens ++
  "\n# Output Tokens: " ++ toString d.output_tokens ++
  "\n\n" ++ d.natural_language ++ "\n"

/-- Modelled from the spec: the full-text normalization C4 claims — per-page
texts joined with a fixed blank-line-dash-blank-line separator. -/
def spec_dash_joined_full_text (pages : List String) : String :=
  String.intercalate "\n\n---\n\n" pages

/-- Modelled from the spec: the mutually exclusive flag handling C9 claims —
supplying both prompt-forcing flags is rejected instead of being processed. -/
def spec_mutually_exclusive_selector (args : Args) : Except String (Option Bool) :=
  if args.table_prompt && args.general_prompt then
    .error "--table-prompt and --general-prompt are mutually exclusive"
  else if args.table_prompt then .ok (some true)
  else if args.general_prompt then .ok (some false)
  else .ok none

/-! Concrete environments used to witness the theorems on explicit inputs. -/

/-- A parser backend whose every document has the two page segments
`"a"` and `"b"`. -/
def bC4 : ParserBackend :=
  { pathExists := fun _ => true
    parse := fun _ => .ok ⟨[⟨"a"⟩, ⟨"b"⟩], 2⟩
    parseBatch := fun ps => .ok (ps.map fun _ => ⟨[⟨"a"⟩, ⟨"b"⟩], 2⟩) }

/-- The parsed dictionary `parse_single_pdf bC4 "x.pdf"` produces. -/
def dC4w : ParsedData := ⟨"x.pdf", "a\n\nb", 2, ⟨[⟨"a"⟩, ⟨"b"⟩], 2⟩⟩

/-- A completion backend answering every request with the fixed message
`"OUT"` and usage counters 3/4. -/
def cbC3 : ClaudeBackend :=
  { model := "claude-sonnet-4-20250514"
    create := fun _ _ => .ok ⟨"OUT", ⟨3, 4⟩⟩ }

/-- The call record `process_markdown cbC3 "x" (some true) none none`
produces. -/
def outC3w : ProcessMarkdownCall :=
  ⟨⟨"OUT", "claude-sonnet-4-20250514", 3, 4, "table"⟩,
   STRUCTURED_DATA_EXTRACTION_PROMPT.replace "{markdown_content}" "x"⟩

/-- A parser backend on which only `"missing.pdf"` does not exist. -/
def bC7 : ParserBackend :=
  { pathExists := fun s => !(s == "missing.pdf")
    parse := fun _ => .ok ⟨[⟨"pg"⟩], 1⟩
    parseBatch := fun ps => .ok (ps.map fun _ => ⟨[⟨"pg"⟩], 1⟩) }

/-- A parser backend whose documents report the source-file page metadata
`99` while returning a single page segment. -/
def bC6a : ParserBackend :=
  { pathExists := fun _ => true
    parse := fun _ => .ok ⟨[⟨"pg"⟩], 99⟩
    parseBatch := fun ps => .ok (ps.map fun _ => ⟨[⟨"pg"⟩], 99⟩) }

/-- As `bC6a` but with source-file page metadata `1`: the two backends agree
on the page segments and differ only in the metadata. -/
def bC6b : ParserBackend :=
  { pathExists := fun _ => true
    parse := fun _ => .ok ⟨[⟨"pg"⟩], 1⟩
    parseBatch := fun ps => .ok (ps.map fun _ => ⟨[⟨"pg"⟩], 1⟩) }

/-- A pipeline on which `"bad.pdf"` does not exist and every other document
processes successfully. -/
def plC1 : Pipeline :=
  { pdfParserAdapter :=
      { pathExists := fun s => !(s == "bad.pdf")
        parse := fun _ => .ok ⟨[⟨"pg"⟩], 1⟩
        parseBatch := fun ps => .ok (ps.map fun _ => ⟨[⟨"pg"⟩], 1⟩) }
    nlp :=
      { model := "claude-sonnet-4-20250514"
        create := fun _ _ => .ok ⟨"OUT", ⟨3, 4⟩⟩ } }

/-- A pipeline on which every document processes successfully. -/
def plC2 : Pipeline :=
  { pdfParserAdapter :=
      { pathExists := fun _ => true
        parse := fun _ => .ok ⟨[⟨"pg"⟩], 1⟩
        parseBatch := fun ps => .ok (ps.map fun _ => ⟨[⟨"pg"⟩], 1⟩) }
    nlp :=
      { model := "claude-sonnet-4-20250514"
        create := fun _ _ => .ok ⟨"OUT", ⟨3, 4⟩⟩ } }

/-! Theorems. -/

/-- C5: prompt auto-detection is a pure function of the document text (it is
a Lean function of the text alone, so determinism holds by construction);
with the selector left as `None`, presence of any one indicator substring of
the fixed set is sufficient to select the structured template, and a text in
which no indicator occurs selects the general template. -/
theorem claim_C5_prompt_autodetect (md : String) :
    (∀ ind, ind ∈ table_indicators → pyIn ind md = true →
      get_prompt_for_data md none =
        STRUCTURED_DATA_EXTRACTION_PROMPT.replace "{markdown_content}" md) ∧
    ((table_indicators.any fun ind => pyIn ind md) = false →
      get_prompt_for_data md none =
        GENERAL_EXTRACTION_PROMPT.replace "{markdown_content}" md) := by
  constructor
  · intro ind hmem hin
    have h : (table_indicators.any fun indicator => pyIn indicator md) = true :=
      List.any_eq_true.mpr ⟨ind, hmem, hin⟩
    unfold get_prompt_for_data
    simp [h]
  · intro h
    unfold get_prompt_for_data
    simp [h]

/-- Witness for C5 at concrete inputs: a pipe-containing text selects the
structured template, plain prose selects the general template. -/
theorem claim_C5_witness :
    ("|" ∈ table_indicators ∧ pyIn "|" "| a | b |" = true ∧
      get_prompt_for_data "| a | b |" none =
        STRUCTURED_DATA_EXTRACTION_PROMPT.replace "{markdown_content}" "| a | b |") ∧
    ((table_indicators.any fun ind => pyIn ind "plain prose") = false ∧
      get_prompt_for_data "plain prose" none =
        GENERAL_EXTRACTION_PROMPT.replace "{markdown_content}" "plain prose") :=
  ⟨⟨by decide, by decide,
    (claim_C5_prompt_autodetect "| a | b |").1 "|" (by decide) (by decide)⟩,
   ⟨by decide, (claim_C5_prompt_autodetect "plain prose").2 (by decide)⟩⟩

/-- C9 counterexample: the two prompt-forcing flags are not mutually
exclusive — with both flags supplied the program proceeds and forces the
structured selector, whereas the claimed mutually exclusive handling would
reject the combination. -/
theorem claim_C9_counterexample :
    determine_use_table_prompt ⟨true, true⟩ = some true ∧
    spec_mutually_exclusive_selector ⟨true, true⟩ =
      .error "--table-prompt and --general-prompt are mutually exclusive" :=
  ⟨rfl, rfl⟩

/-- C9 amended: the flags are not declared mutually exclusive; when neither
is supplied the selector is left as auto (`None`), `--table-prompt` alone
forces `True`, `--general-prompt` alone forces `False`, and when both are
supplied no error is raised and `--table-prompt` takes precedence. -/
theorem claim_C9_flag_selector :
    determine_use_table_prompt ⟨false, false⟩ = none ∧
    determine_use_table_prompt ⟨true, false⟩ = some true ∧
    determine_use_table_prompt ⟨false, true⟩ = some false ∧
    determine_use_table_prompt ⟨true, true⟩ = some true :=
  ⟨rfl, rfl, rfl, rfl⟩

/-- C10: directory listing returns exactly the entries matching `*.pdf`
(those whose name ends in `.pdf`), sorted in ascending order, and the result
does not depend on the filesystem's enumeration order: any two listings that
are permutations of each other give the same result. -/
theorem claim_C10_glob_sorted (entries : List String) :
    (get_all_pdfs_in_directory entries).Perm
      (entries.filter fun n => n.endsWith ".pdf") ∧
    List.Sorted (· ≤ ·) (get_all_pdfs_in_directory entries) ∧
    (∀ n, n ∈ get_all_pdfs_in_directory entries ↔
      n ∈ entries ∧ n.endsWith ".pdf" = true) ∧
    ∀ other : List String, entries.Perm other →
      get_all_pdfs_in_directory entries = get_all_pdfs_in_directory other := by
  refine ⟨List.perm_insertionSort _ _, List.sorted_insertionSort _ _, ?_, ?_⟩
  · intro n
    unfold get_all_pdfs_in_directory
    rw [(List.perm_insertionSort _ _).mem_iff, List.mem_filter]
  · intro other hperm
    refine List.eq_of_perm_of_sorted ?_ (List.sorted_insertionSort _ _)
      (List.sorted_insertionSort _ _)
    exact ((List.perm_insertionSort _ _).trans (hperm.filter _)).trans
      (List.perm_insertionSort _ _).symm

/-- Witness for C10: two enumeration orders of the same directory give the
same sorted result. -/
theorem claim_C10_witness :
    List.Perm ["b.pdf", "c.txt", "a.pdf"] ["a.pdf", "b.pdf", "c.txt"] ∧
    get_all_pdfs_in_directory ["b.pdf", "c.txt", "a.pdf"] =
      get_all_pdfs_in_directory ["a.pdf", "b.pdf", "c.txt"] :=
  ⟨by decide,
   (claim_C10_glob_sorted ["b.pdf", "c.txt", "a.pdf"]).2.2.2 _ (by decide)⟩

/-- C4 counterexample: at a concrete parse whose document has the two page
segments `"a"` and `"b"`, the full text the adapter returns is `"a\n\nb"` —
the pages joined with a single blank line — and not the
blank-line-dash-blank-line join `"a\n\n---\n\nb"` the claim states. -/
theorem claim_C4_counterexample :
    (parse_single_pdf bC4 "doc.pdf").map (·.markdown) = .ok "a\n\nb" ∧
    spec_dash_joined_full_text ["a", "b"] = "a\n\n---\n\nb" ∧
    ("a\n\nb" : String) ≠ "a\n\n---\n\nb" :=
  ⟨rfl, rfl, by decide⟩

/-- C4 amended: the full text equals the per-page texts joined with the
two-newline separator (one blank line, no dash marker) between consecutive
pages; all four parse variants apply byte-identical normalization (the
awaitable variants are pointwise equal to the blocking ones); the
blank-line-dash-blank-line marker occurs only as the `page_separator` option
of the backend configuration. -/
theorem claim_C4_blank_line_join (b : ParserBackend) (p : String)
    (paths : List String) :
    parse_single_pdf_async b p = parse_single_pdf b p ∧
    parse_multiple_pdfs_async b paths = parse_multiple_pdfs b paths ∧
    (∀ d, parse_single_pdf b p = .ok d →
      d.markdown =
        String.intercalate "\n\n" (d.result.markdownDocuments.map (·.text))) ∧
    (∀ ds, (parse_multiple_pdfs b paths).1 = .ok ds → ∀ d ∈ ds,
      d.markdown =
        String.intercalate "\n\n" (d.result.markdownDocuments.map (·.text))) ∧
    LLAMA_PARSE_CONFIG.page_separator = "\n\n---\n\n" := by
  refine ⟨rfl, rfl, ?_, ?_, rfl⟩
  · intro d hd
    unfold parse_single_pdf at hd
    split at hd
    · split at hd
      · exact Except.noConfusion hd
      · simp only [Except.ok.injEq] at hd
        subst hd
        rfl
    · exact Except.noConfusion hd
  · intro ds hds d hd
    unfold parse_multiple_pdfs at hds
    split at hds
    · simp only [Prod.fst] at hds
      exact Except.noConfusion hds
    · split at hds
      · simp only [Prod.fst] at hds
        exact Except.noConfusion hds
      · simp only [Prod.fst, Except.ok.injEq] at hds
        subst hds
        obtain ⟨pr, _, rfl⟩ := List.mem_map.mp hd
        rfl

/-- Witness for C4 at a concrete backend: the awaitable variant agrees with
the blocking one and the concrete parsed markdown is the blank-line join of
its page segments. -/
theorem claim_C4_witness :
    parse_single_pdf bC4 "x.pdf" = .ok dC4w ∧
    dC4w.markdown =
      String.intercalate "\n\n" (dC4w.result.markdownDocuments.map (·.text)) :=
  ⟨rfl, (claim_C4_blank_line_join bC4 "x.pdf" []).2.2.1 dC4w rfl⟩

/-- C8 counterexample: at a concrete result record the persisted file
content is not the claimed four-line-header-then-body layout — a title line
(`# 自然言語処理結果`) precedes the four metadata lines. -/
theorem claim_C8_counterexample :
    (save_natural_language ⟨"BODY", "m", 1, 2, "general"⟩ none none).2 ≠
      spec_four_line_header_layout ⟨"BODY", "m", 1, 2, "general"⟩ ∧
    (save_natural_language ⟨"BODY", "m", 1, 2, "general"⟩ none none).2 =
      "# 自然言語処理結果\n" ++
        spec_four_line_header_layout ⟨"BODY", "m", 1, 2, "general"⟩ :=
  ⟨by decide, rfl⟩

/-- C8 amended: every persisted natural-language file consists of a fixed
title line followed by the four-line metadata header (model id,
prompt-variant tag, input token count, output token count), a blank line,
and then the generated text body — the title line is the only thing
preceding the header and body. -/
theorem claim_C8_file_layout (d : NLResult) (src fname : Option String) :
    (save_natural_language d src fname).2 =
      "# 自然言語処理結果\n" ++ spec_four_line_header_layout d := by
  have h : ("# 自然言語処理結果\n# Model: " : String) =
      "# 自然言語処理結果\n" ++ "# Model: " := rfl
  simp only [save_natural_language, spec_four_line_header_layout, h,
    String.append_assoc]

/-- C3 counterexample: with the selector left as auto (`None`) on a document
containing a pipe character, the structured template is submitted to the
model but the returned classification tag is `"general"`, not `"table"`. -/
theorem claim_C3_counterexample :
    (process_markdown cbC3 "|" none none none).map (·.submittedPrompt) =
      .ok (STRUCTURED_DATA_EXTRACTION_PROMPT.replace "{markdown_content}" "|") ∧
    (process_markdown cbC3 "|" none none none).map (·.result.prompt_type) =
      .ok "general" ∧
    ("general" : String) ≠ "table" :=
  ⟨rfl, rfl, by decide⟩

/-- C3 amended: the returned `prompt_type` reflects only the caller-supplied
arguments: `"custom"` exactly when a truthy custom prompt is supplied,
otherwise `"table"` exactly when the selector is passed as `True` and
`"general"` otherwise — so in auto mode (`None`) the tag is `"general"`
even when auto-detection submitted the structured template.  The tag agrees
with the submitted template whenever the selector is explicit (`True` or
`False`) or a custom prompt is given. -/
theorem claim_C3_prompt_tag (c : ClaudeBackend) (md : String)
    (utp : Option Bool) (cp : Option String) (mt : Option Nat)
    (out : ProcessMarkdownCall)
    (h : process_markdown c md utp cp mt = .ok out) :
    out.result.prompt_type =
      (if pyTruthyStr cp then "custom"
       else if pyTruthyOpt utp then "table" else "general") ∧
    (pyTruthyStr cp = true → out.submittedPrompt = cp.getD "") ∧
    (pyTruthyStr cp = false → utp = some true →
      out.submittedPrompt =
        STRUCTURED_DATA_EXTRACTION_PROMPT.replace "{markdown_content}" md) ∧
    (pyTruthyStr cp = false → utp = some false →
      out.submittedPrompt =
        GENERAL_EXTRACTION_PROMPT.replace "{markdown_content}" md) := by
  simp only [process_markdown] at h
  split at h
  · exact Except.noConfusion h
  · simp only [Except.ok.injEq] at h
    subst h
    refine ⟨rfl, ?_, ?_, ?_⟩
    · intro hcp
      simp [hcp]
    · intro hcp hu
      simp [hcp, hu, get_prompt_for_data]
    · intro hcp hu
      simp [hcp, hu, get_prompt_for_data]

/-- Witness for C3 at a concrete backend: with the selector passed as
`True`, the tag is `"table"` and the structured template is submitted. -/
theorem claim_C3_witness :
    process_markdown cbC3 "x" (some true) none none = .ok outC3w ∧
    outC3w.result.prompt_type =
      (if pyTruthyStr none then "custom"
       else if pyTruthyOpt (some true) then "table" else "general") ∧
    outC3w.submittedPrompt =
      STRUCTURED_DATA_EXTRACTION_PROMPT.replace "{markdown_content}" "x" :=
  ⟨rfl,
   (claim_C3_prompt_tag cbC3 "x" (some true) none none outC3w rfl).1,
   (claim_C3_prompt_tag cbC3 "x" (some true) none none outC3w rfl).2.2.1
     rfl rfl⟩

/-- Helper: the page count a single parse reports, as a function of the
existence check and the backend response. -/
theorem parse_single_pdf_map_page_count (b : ParserBackend) (p : String) :
    (parse_single_pdf b p).map (·.page_count) =
      if b.pathExists p then (b.parse p).map (·.markdownDocuments.length)
      else .error ("PDF file not found: " ++ p) := by
  unfold parse_single_pdf
  cases hb : b.pathExists p
  · simp [hb, Except.map]
  · cases hp : b.parse p <;> simp [hb, hp, Except.map]

/-- C6: the `page_count` of every returned ParsedDocument equals the number
of page-segment documents the backend returned for that file, for the
single-document and the batch parse alike; and it is never taken from the
file's own page metadata — two backends that agree on the page segments but
report different source-file page metadata yield identical page counts. -/
theorem claim_C6_page_count (b b2 : ParserBackend) (p : String)
    (paths : List String) :
    (∀ d, parse_single_pdf b p = .ok d →
      d.page_count = d.result.markdownDocuments.length) ∧
    (∀ ds, (parse_multiple_pdfs b paths).1 = .ok ds → ∀ d ∈ ds,
      d.page_count = d.result.markdownDocuments.length) ∧
    (b2.pathExists = b.pathExists →
      (∀ q, (b.parse q).map (·.markdownDocuments) =
            (b2.parse q).map (·.markdownDocuments)) →
      (parse_single_pdf b p).map (·.page_count) =
        (parse_single_pdf b2 p).map (·.page_count)) := by
  refine ⟨?_, ?_, ?_⟩
  · intro d hd
    unfold parse_single_pdf at hd
    split at hd
    · split at hd
      · exact Except.noConfusion hd
      · simp only [Except.ok.injEq] at hd
        subst hd
        rfl
    · exact Except.noConfusion hd
  · intro ds hds d hd
    unfold parse_multiple_pdfs at hds
    split at hds
    · simp only [Prod.fst] at hds
      exact Except.noConfusion hds
    · split at hds
      · simp only [Prod.fst] at hds
        exact Except.noConfusion hds
      · simp only [Prod.fst, Except.ok.injEq] at hds
        subst hds
        obtain ⟨pr, _, rfl⟩ := List.mem_map.mp hd
        rfl
  · intro hex hparse
    rw [parse_single_pdf_map_page_count, parse_single_pdf_map_page_count, hex]
    cases hb : b.pathExists p
    · simp [hb]
    · have h := hparse p
      cases h1 : b.parse p <;> cases h2 : b2.parse p <;> rw [h1, h2] at h <;>
        simp_all [Except.map]

/-- Witness for C6: two concrete backends agreeing on a one-segment parse
but reporting source metadata 99 versus 1 give the same page count, and the
concrete parse's `page_count` is the segment count. -/
theorem claim_C6_witness :
    (bC6a.parse "d.pdf").map (·.filePageCountMetadata) = .ok 99 ∧
    (bC6b.parse "d.pdf").map (·.filePageCountMetadata) = .ok 1 ∧
    (parse_single_pdf bC6a "d.pdf").map (·.page_count) =
      (parse_single_pdf bC6b "d.pdf").map (·.page_count) ∧
    (⟨"d.pdf", "pg", 1, ⟨[⟨"pg"⟩], 99⟩⟩ : ParsedData).page_count =
      (⟨"d.pdf", "pg", 1, ⟨[⟨"pg"⟩], 99⟩⟩ : ParsedData).result.markdownDocuments.length :=
  ⟨rfl, rfl,
   (claim_C6_page_count bC6a bC6b "d.pdf" []).2.2 rfl (fun _ => rfl),
   (claim_C6_page_count bC6a bC6b "d.pdf" []).1 ⟨"d.pdf", "pg", 1, ⟨[⟨"pg"⟩], 99⟩⟩ rfl⟩

/-- Helper for C7: if some path of the batch does not exist then the
existence loop finds a nonexistent path of the batch. -/
theorem firstMissing_of_missing (b : ParserBackend) (paths : List String)
    (p : String) (hmem : p ∈ paths) (hmiss : b.pathExists p = false) :
    ∃ q, firstMissing b paths = some q ∧ q ∈ paths ∧ b.pathExists q = false := by
  induction paths with
  | nil => exact absurd hmem (List.not_mem_nil p)
  | cons a as ih =>
    cases ha : b.pathExists a
    · exact ⟨a, by simp [firstMissing, ha], List.mem_cons_self a as, ha⟩
    · have hp : p ∈ as := by
        rcases List.mem_cons.mp hmem with h | h
        · subst h
          rw [ha] at hmiss
          exact absurd hmiss (by simp)
        · exact h
      obtain ⟨q, hq1, hq2, hq3⟩ := ih hp
      exact ⟨q, by simp [firstMissing, ha, hq1], List.mem_cons_of_mem _ hq2, hq3⟩

/-- C7: if any input path of a batch call does not exist, both batch parse
variants raise a not-found error naming a nonexistent path of the batch and
the remote-call log stays empty — the backend is never invoked for any
document of that batch. -/
theorem claim_C7_eager_existence (b : ParserBackend) (paths : List String)
    (p : String) (hmem : p ∈ paths) (hmiss : b.pathExists p = false) :
    ∃ q, q ∈ paths ∧ b.pathExists q = false ∧
      parse_multiple_pdfs b paths =
        (.error ("PDF file not found: " ++ q), []) ∧
      parse_multiple_pdfs_async b paths =
        (.error ("PDF file not found: " ++ q), []) := by
  obtain ⟨q, hq1, hq2, hq3⟩ := firstMissing_of_missing b paths p hmem hmiss
  refine ⟨q, hq2, hq3, ?_, ?_⟩
  · unfold parse_multiple_pdfs
    rw [hq1]
  · unfold parse_multiple_pdfs_async
    rw [hq1]

/-- Witness for C7 at a concrete backend and batch: the batch containing
`"missing.pdf"` errors without any remote call. -/
theorem claim_C7_witness :
    ∃ q, q ∈ ["ok.pdf", "missing.pdf"] ∧ bC7.pathExists q = false ∧
      parse_multiple_pdfs bC7 ["ok.pdf", "missing.pdf"] =
        (.error ("PDF file not found: " ++ q), []) ∧
      parse_multiple_pdfs_async bC7 ["ok.pdf", "missing.pdf"] =
        (.error ("PDF file not found: " ++ q), []) :=
  claim_C7_eager_existence bC7 ["ok.pdf", "missing.pdf"] "missing.pdf"
    (by decide) rfl

/-- Helper: mapping over a list zipped with its own image under a map is a
single map. -/
theorem zip_map_self_map {α β γ : Type} (f : α → β) (g : α × β → γ)
    (l : List α) :
    (l.zip (l.map f)).map g = l.map fun a => g (a, f a) := by
  induction l with
  | nil => rfl
  | cons a as ih => simp only [List.map_cons, List.zip_cons_cons, ih]

/-- Helper: the concurrent batch path, after gathering, is the same
per-index map over the input paths as the sequential one, with the
awaitable per-document runner. -/
theorem process_multiple_pdfs_async_eq_map (pl : Pipeline) (paths : List String)
    (utp : Option Bool) (sm snl : Bool) :
    pl.process_multiple_pdfs_async paths utp sm snl =
      paths.map fun p =>
        match pl.process_single_pdf_async p utp sm snl with
        | .error e => .failure (pyPathName p) e
        | .ok r => .success r := by
  unfold Pipeline.process_multiple_pdfs_async asyncioGather
  rw [zip_map_self_map]

/-- Helper: a successful per-document run tags its record with the
document's filename. -/
theorem process_single_pdf_ok_name (pl : Pipeline) (p : String)
    (utp : Option Bool) (sm snl : Bool) (r : SingleResult)
    (h : pl.process_single_pdf p utp sm snl = .ok r) :
    r.pdf_file = pyPathName p := by
  unfold Pipeline.process_single_pdf at h
  cases hp : parse_single_pdf pl.pdfParserAdapter p with
  | error e =>
    simp only [hp] at h
    exact Except.noConfusion h
  | ok pd =>
    simp only [hp] at h
    cases hm : process_markdown pl.nlp pd.markdown utp none none with
    | error e =>
      simp only [hm] at h
      exact Except.noConfusion h
    | ok call =>
      simp only [hm, Except.ok.injEq] at h
      subst h
      rfl

/-- Helper: the awaitable per-document run tags its record with the
document's filename. -/
theorem process_single_pdf_async_ok_name (pl : Pipeline) (p : String)
    (utp : Option Bool) (sm snl : Bool) (r : SingleResult)
    (h : pl.process_single_pdf_async p utp sm snl = .ok r) :
    r.pdf_file = pyPathName p := by
  unfold Pipeline.process_single_pdf_async at h
  cases hp : parse_single_pdf_async pl.pdfParserAdapter p with
  | error e =>
    simp only [hp] at h
    exact Except.noConfusion h
  | ok pd =>
    simp only [hp] at h
    cases hm : process_markdown pl.nlp pd.markdown utp none none with
    | error e =>
      simp only [hm] at h
      exact Except.noConfusion h
    | ok call =>
      simp only [hm, Except.ok.injEq] at h
      subst h
      rfl

/-- C2: both batch paths return exactly one record per input document — the
result list has the length of the input list — and the record at each index
carries the filename of the input path at that same index; the concurrent
path pairs by original list position (gather returns outcomes in task
order, independent of completion order). -/
theorem claim_C2_batch_pairing (pl : Pipeline) (paths : List String)
    (utp : Option Bool) (sm snl : Bool) :
    (pl.process_multiple_pdfs paths utp sm snl).length = paths.length ∧
    (pl.process_multiple_pdfs_async paths utp sm snl).length = paths.length ∧
    ∀ (i : Nat) (p : String), paths[i]? = some p →
      ((pl.process_multiple_pdfs paths utp sm snl)[i]?).map BatchRecord.pdf_file
          = some (pyPathName p) ∧
      ((pl.process_multiple_pdfs_async paths utp sm snl)[i]?).map BatchRecord.pdf_file
          = some (pyPathName p) := by
  have hasync := process_multiple_pdfs_async_eq_map pl paths utp sm snl
  refine ⟨by simp [Pipeline.process_multiple_pdfs], by rw [hasync]; simp, ?_⟩
  intro i p hip
  constructor
  · unfold Pipeline.process_multiple_pdfs
    rw [List.getElem?_map, hip]
    cases hrun : pl.process_single_pdf p utp sm snl with
    | error e => simp [hrun, BatchRecord.pdf_file]
    | ok r =>
      simp [hrun, BatchRecord.pdf_file,
        process_single_pdf_ok_name pl p utp sm snl r hrun]
  · rw [hasync, List.getElem?_map, hip]
    cases hrun : pl.process_single_pdf_async p utp sm snl with
    | error e => simp [hrun, BatchRecord.pdf_file]
    | ok r =>
      simp [hrun, BatchRecord.pdf_file,
        process_single_pdf_async_ok_name pl p utp sm snl r hrun]

/-- Witness for C2 on a concrete two-document batch. -/
theorem claim_C2_witness :
    (plC2.process_multiple_pdfs ["dir/a.pdf", "b.pdf"] none true true).length = 2 ∧
    (plC2.process_multiple_pdfs_async ["dir/a.pdf", "b.pdf"] none true true).length = 2 ∧
    ((plC2.process_multiple_pdfs ["dir/a.pdf", "b.pdf"] none true true)[0]?).map
        BatchRecord.pdf_file = some "a.pdf" ∧
    ((plC2.process_multiple_pdfs_async ["dir/a.pdf", "b.pdf"] none true true)[0]?).map
        BatchRecord.pdf_file = some "a.pdf" :=
  have H := claim_C2_batch_pairing plC2 ["dir/a.pdf", "b.pdf"] none true true
  ⟨H.1, H.2.1, (H.2.2 0 "dir/a.pdf" rfl).1, (H.2.2 0 "dir/a.pdf" rfl).2⟩

/-- C1: in both batch paths, if the document at index `i` fails with
exception text `e` while every other document's run succeeds, the batch
still returns a full-length report in which index `i` holds the failure
record tagged with that document's filename and error description, and
every other index holds a success record — one failing document never
prevents the others from completing and the batch never aborts. -/
theorem claim_C1_failure_isolation (pl : Pipeline) (paths : List String)
    (utp : Option Bool) (sm snl : Bool) (i : Nat) (bad e : String)
    (hbad : paths[i]? = some bad)
    (hfail_s : pl.process_single_pdf bad utp sm snl = .error e)
    (hfail_a : pl.process_single_pdf_async bad utp sm snl = .error e)
    (hok_s : ∀ j q, j ≠ i → paths[j]? = some q →
      ∃ r, pl.process_single_pdf q utp sm snl = .ok r)
    (hok_a : ∀ j q, j ≠ i → paths[j]? = some q →
      ∃ r, pl.process_single_pdf_async q utp sm snl = .ok r) :
    (pl.process_multiple_pdfs paths utp sm snl).length = paths.length ∧
    (pl.process_multiple_pdfs_async paths utp sm snl).length = paths.length ∧
    (pl.process_multiple_pdfs paths utp sm snl)[i]? =
      some (.failure (pyPathName bad) e) ∧
    (pl.process_multiple_pdfs_async paths utp sm snl)[i]? =
      some (.failure (pyPathName bad) e) ∧
    ∀ (j : Nat) (q : String), j ≠ i → paths[j]? = some q →
      (∃ r, (pl.process_multiple_pdfs paths utp sm snl)[j]? =
        some (.success r)) ∧
      (∃ r, (pl.process_multiple_pdfs_async paths utp sm snl)[j]? =
        some (.success r)) := by
  have hasync := process_multiple_pdfs_async_eq_map pl paths utp sm snl
  refine ⟨by simp [Pipeline.process_multiple_pdfs], by rw [hasync]; simp,
    ?_, ?_, ?_⟩
  · unfold Pipeline.process_multiple_pdfs
    rw [List.getElem?_map, hbad]
    simp [hfail_s]
  · rw [hasync, List.getElem?_map, hbad]
    simp [hfail_a]
  · intro j q hj hq
    constructor
    · obtain ⟨r, hr⟩ := hok_s j q hj hq
      refine ⟨r, ?_⟩
      unfold Pipeline.process_multiple_pdfs
      rw [List.getElem?_map, hq]
      simp [hr]
    · obtain ⟨r, hr⟩ := hok_a j q hj hq
      refine ⟨r, ?_⟩
      rw [hasync, List.getElem?_map, hq]
      simp [hr]

/-- Witness for C1 on a concrete batch in which the second document does
not exist and the first succeeds. -/
theorem claim_C1_witness :
    (plC1.process_multiple_pdfs ["good.pdf", "bad.pdf"] none true true)[1]? =
      some (.failure "bad.pdf" "PDF file not found: bad.pdf") ∧
    (plC1.process_multiple_pdfs_async ["good.pdf", "bad.pdf"] none true true)[1]? =
      some (.failure "bad.pdf" "PDF file not found: bad.pdf") ∧
    (∃ r, (plC1.process_multiple_pdfs ["good.pdf", "bad.pdf"] none true true)[0]? =
      some (.success r)) ∧
    (∃ r, (plC1.process_multiple_pdfs_async ["good.pdf", "bad.pdf"] none true true)[0]? =
      some (.success r)) := by
  have hok_s : ∀ j q, j ≠ 1 → (["good.pdf", "bad.pdf"] : List String)[j]? = some q →
      ∃ r, plC1.process_single_pdf q none true true = .ok r := by
    intro j q hj hq
    match j, hq with
    | 0, hq =>
      cases hq
      exact ⟨_, rfl⟩
    | 1, hq => exact absurd rfl hj
    | n + 2, hq => exact Option.noConfusion hq
  have hok_a : ∀ j q, j ≠ 1 → (["good.pdf", "bad.pdf"] : List String)[j]? = some q →
      ∃ r, plC1.process_single_pdf_async q none true true = .ok r := by
    intro j q hj hq
    match j, hq with
    | 0, hq =>
      cases hq
      exact ⟨_, rfl⟩
    | 1, hq => exact absurd rfl hj
    | n + 2, hq => exact Option.noConfusion hq
  have H := claim_C1_failure_isolation plC1 ["good.pdf", "bad.pdf"] none true true
    1 "bad.pdf" "PDF file not found: bad.pdf" rfl rfl rfl hok_s hok_a
  refine ⟨H.2.2.1, H.2.2.2.1, ?_, ?_⟩
  · exact (H.2.2.2.2 0 "good.pdf" (by decide) rfl).1
  · exact (H.2.2.2.2 0 "good.pdf" (by decide) rfl).2

end ParseAndNlp
